import Mathlib

/-!
Verification development for the image-analysis HTTP service in
`src/backend/main.py` (FastAPI app with a `/analyze`, `/history` and
`/health` endpoint).

The Python handlers are shallowly embedded as pure Lean functions.
External effects (the vision-language model, the MongoDB store, the
wall clock) are represented by explicit inputs: an `AnalyzeEnv` record
carries the behaviour each external call would exhibit on this request
(raise, return a falsy value, or return a value), the store is a list
of documents threaded through the handler, and elapsed wall-clock time
is carried as per-phase durations.  The handler additionally returns
the list of externally visible events it performed, in order, so that
claims about "no inference call is made" or "at most one insert" are
statements about the event trace.
-/

/-- In-memory bitmap metadata, as produced by `PIL.Image.open`:
width and height in pixels plus the color-mode string. -/
structure Bitmap where
  width : Nat
  height : Nat
  mode : String
  deriving DecidableEq, Repr

/-- Round-half-up division: the nearest integer to `num / den`,
ties upward.  Used to model the pixel rounding performed by
`PIL.Image.thumbnail` when scaling the shorter edge. -/
def roundHalfUp (num den : Nat) : Nat :=
  (2 * num + den) / (2 * den)

/-- Modelled from the behaviour of the external `PIL.Image.thumbnail`
call at `main.py` line 110: the new dimensions of an image whose
longest edge exceeds the bounding box of 1024.  The longest edge
becomes 1024 and the other edge is scaled proportionally, rounded to
the nearest pixel and clamped to at least 1. -/
def thumbnailDims (w h : Nat) : Nat × Nat :=
  if w ≤ h then
    (max 1 (roundHalfUp (1024 * w) h), 1024)
  else
    (1024, max 1 (roundHalfUp (1024 * h) w))

/-- The image-normalisation step of `analyze_image`
(`main.py` lines 108-112): downscale when the longest edge exceeds
1024 px, then coerce the color mode to `RGB` if it differs. -/
def normalizeImage (img : Bitmap) : Bitmap :=
  let resized :=
    if 1024 < max img.width img.height then
      let wh := thumbnailDims img.width img.height
      { img with width := wh.1, height := wh.2 }
    else img
  if resized.mode ≠ "RGB" then { resized with mode := "RGB" } else resized

/-- The `analysis_results` dictionary built by `analyze_image`
(`main.py` lines 118-132): each key is optional because the dictionary
is populated incrementally and an inference exception interrupts it. -/
structure AnalysisResults where
  short_caption : Option String
  prompt_response : Option String
  error : Option String
  deriving DecidableEq, Repr

/-- Behaviour of one external model call (`model.caption` or
`model.query`) on this request: it can raise an exception with a
message, return a falsy value (`None`), or return a dictionary whose
payload string is `s`. -/
inductive ModelCall where
  | raiseExc (msg : String)
  | falsy
  | value (s : String)
  deriving DecidableEq, Repr

/-- Externally visible actions of the `/analyze` handler, in program
order: the model-availability check, reading the upload, decoding it,
the two model calls, and the MongoDB write attempt. -/
inductive Ev where
  | checkModel
  | readUpload
  | decodeImage
  | captionCall
  | queryCall
  | storeWrite
  deriving DecidableEq, Repr

/-- Continuation of the inference block after the caption call has
produced the text `capText` without raising: the `model.query` call at
`main.py` line 127 and the surrounding `except` at lines 130-132. -/
def runQueryAfter (capText : String) (q : ModelCall) : AnalysisResults × List Ev :=
  match q with
  | .raiseExc m =>
      ({ short_caption := some capText, prompt_response := none,
         error := some ("Analysis partially failed: " ++ m) },
       [.captionCall, .queryCall])
  | .falsy =>
      ({ short_caption := some capText, prompt_response := some "Query processing failed",
         error := none },
       [.captionCall, .queryCall])
  | .value a =>
      ({ short_caption := some capText, prompt_response := some a,
         error := none },
       [.captionCall, .queryCall])

/-- The inference block of `analyze_image` (`main.py` lines 120-132):
a single `try` enclosing both the caption call and the query call, so
a raising caption call skips the query call and lands in the `except`
branch, which only appends the aggregate `error` note.  A falsy
caption result is replaced by the placeholder string and the query
call still runs. -/
def runInference (cap q : ModelCall) : AnalysisResults × List Ev :=
  match cap with
  | .raiseExc m =>
      ({ short_caption := none, prompt_response := none,
         error := some ("Analysis partially failed: " ++ m) },
       [.captionCall])
  | .falsy => runQueryAfter "Caption generation failed" q
  | .value s => runQueryAfter s q

/-- A document of the `image_analysis` MongoDB collection, as inserted
by `analyze_image` (`main.py` lines 145-152), together with the
store-assigned `_id`.  Timestamps are abstract clock readings
(`Nat`). -/
structure StoredDoc where
  oid : Nat
  timestamp : Nat
  filename : String
  prompt : String
  analysis_results : AnalysisResults
  processing_time : Nat
  image_data : String
  deriving DecidableEq, Repr

/-- Modelled from the external `img.save` + `base64.b64encode` calls
at `main.py` lines 140-143: an opaque injective rendering of the
stored image payload; its exact content is irrelevant to the claims. -/
def encodeBase64 (img : Bitmap) : String :=
  "b64(" ++ toString img.width ++ "x" ++ toString img.height ++ "," ++ img.mode ++ ")"

/-- Everything about one `/analyze` request that the Python handler
observes from the outside world: the global model handle state, the
outcome of decoding the upload, the behaviour of the two model calls,
whether the MongoDB write block succeeds, the form fields, the clock
reading at receipt, and the wall-clock duration of each phase. -/
structure AnalyzeEnv where
  modelLoaded : Bool
  decoded : Option Bitmap
  captionBehavior : ModelCall
  queryBehavior : ModelCall
  storeOk : Bool
  filename : String
  prompt : String
  startTime : Nat
  tRead : Nat
  tDecode : Nat
  tInfer : Nat
  tStore : Nat
  deriving DecidableEq, Repr

/-- HTTP outcome of `/analyze`: a 200 `JSONResponse` carrying the
analysis dictionary and `processing_time`, or a raised
`HTTPException` with a status code and detail string. -/
inductive AnalyzeResponse where
  | ok (analysis : AnalysisResults) (processing_time : Nat)
  | httpError (status : Nat) (detail : String)
  deriving DecidableEq, Repr

/-- The `/analyze` handler (`main.py` lines 91-172), embedded as a
function of the request environment and the current store contents.
Returns the HTTP outcome, the store contents afterwards, and the
event trace.  Control flow mirrors the source: model check first
(lines 100-102), read + decode with a 400 on decode failure
(lines 104-115), the single-`try` inference block (lines 120-132),
`process_time` computed before the persistence block (line 134), the
swallowed persistence `try` (lines 137-158), and the 200 response
(lines 160-166). -/
def analyze_image (env : AnalyzeEnv) (store : List StoredDoc) (nextOid : Nat) :
    AnalyzeResponse × List StoredDoc × List Ev :=
  if env.modelLoaded = false then
    (.httpError 500 "Model not initialized. Please try again later.", store, [.checkModel])
  else
    match env.decoded with
    | none =>
        (.httpError 400 "Invalid image format", store,
         [.checkModel, .readUpload, .decodeImage])
    | some img =>
        let nimg := normalizeImage img
        let infOut := runInference env.captionBehavior env.queryBehavior
        let process_time := env.tRead + env.tDecode + env.tInfer
        let store' :=
          if env.storeOk then
            store ++ [{ oid := nextOid,
                        timestamp := env.startTime + process_time + env.tStore,
                        filename := env.filename,
                        prompt := env.prompt,
                        analysis_results := infOut.1,
                        processing_time := process_time,
                        image_data := encodeBase64 nimg }]
          else store
        (.ok infOut.1 process_time, store',
         [.checkModel, .readUpload, .decodeImage] ++ infOut.2 ++ [.storeWrite])

/-- The history record returned by `/history` after the per-document
conversions in the loop at `main.py` lines 185-188: the `_id` as a
string, the timestamp as an ISO string, and no `image_data` field
(the find projection `{"image_data": 0}` excludes it, modelled as the
field being `none`). -/
structure HistoryDoc where
  id : String
  timestampIso : String
  filename : String
  prompt : String
  analysis_results : AnalysisResults
  processing_time : Nat
  image_data : Option String
  deriving DecidableEq, Repr

/-- Modelled from the external `datetime.isoformat` call at
`main.py` line 187: an opaque injective rendering of an abstract
timestamp as its caller-facing ISO string. -/
def isoformat (t : Nat) : String :=
  "iso(" ++ toString t ++ ")"

/-- Insert a document into a list kept in descending-timestamp order,
before the first document whose timestamp is strictly smaller. -/
def insertDesc (d : StoredDoc) : List StoredDoc → List StoredDoc
  | [] => [d]
  | x :: xs => if d.timestamp ≤ x.timestamp then x :: insertDesc d xs else d :: x :: xs

/-- The `sort("timestamp", -1)` step of the `/history` query at
`main.py` line 182: the store contents in descending timestamp
order. -/
def historySort : List StoredDoc → List StoredDoc
  | [] => []
  | x :: xs => insertDesc x (historySort xs)

/-- The documents selected by the `/history` query before the
per-document conversions (`main.py` lines 179-182): sorted descending
by timestamp, then bounded by the cursor `.limit(limit)`.  The
`limit` form field is a Python `int`, and PyMongo (which motor
delegates to) documents `limit(0)` as meaning no limit at all, while
a negative argument bounds the result by its absolute value, so a
zero limit selects every document and any other limit selects at most
`limit.natAbs`. -/
def selectHistory (store : List StoredDoc) (limit : Int) : List StoredDoc :=
  if limit = 0 then historySort store
  else (historySort store).take limit.natAbs

/-- The per-document conversion loop of `get_history`
(`main.py` lines 185-188). -/
def toHistoryDoc (d : StoredDoc) : HistoryDoc :=
  { id := toString d.oid,
    timestampIso := isoformat d.timestamp,
    filename := d.filename,
    prompt := d.prompt,
    analysis_results := d.analysis_results,
    processing_time := d.processing_time,
    image_data := none }

/-- The `/history` handler (`main.py` lines 175-190): query the `N`
most recent documents (default 10), excluding the image payload, and
convert each to its caller-facing form. -/
def get_history (store : List StoredDoc) (limit : Int) : List HistoryDoc :=
  (selectHistory store limit).map toHistoryDoc

/-- The default `limit` of `get_history`, from the parameter default
`limit: int = 10` at `main.py` line 176. -/
def get_historyDefault (store : List StoredDoc) : List HistoryDoc :=
  get_history store 10

/-- The fields of the `/health` response relevant to readiness
(`main.py` lines 195-208).  The handler reads the global handles
`model` and `mongo_client`; presence is `Option.isSome`. -/
structure HealthReport where
  status : String
  model_loaded : Bool
  mongodb_status : String
  deriving DecidableEq, Repr

/-- The `/health` handler (`main.py` lines 195-208), as a function of
the two global handles: `"healthy"` exactly when the model handle is
present and the Mongo client handle is present (a present client
object is truthy), `"degraded"` otherwise. -/
def health_check {M C : Type} (model : Option M) (mongo_client : Option C) : HealthReport :=
  { status := if model.isSome && mongo_client.isSome then "healthy" else "degraded",
    model_loaded := model.isSome,
    mongodb_status := if mongo_client.isSome then "connected" else "disconnected" }

/-! ## Helper lemmas -/

/-- Bounds on the scaled shorter edge produced by `thumbnailDims`:
the rounded-and-clamped value `max 1 (roundHalfUp (1024 * S) L)` is
within one pixel (measured against the longest edge `L`) of the exact
proportional value `1024 * S / L`, and does not exceed 1024 when
`S ≤ L`. -/
theorem scaledEdge_bounds (S L : Nat) (hL : 1 ≤ L) :
    max 1 (roundHalfUp (1024 * S) L) * L ≤ 1024 * S + L ∧
    1024 * S ≤ max 1 (roundHalfUp (1024 * S) L) * L + L ∧
    (S ≤ L → max 1 (roundHalfUp (1024 * S) L) ≤ 1024) := by
  unfold roundHalfUp
  obtain ⟨d, r, hdr, hrlt, hdef⟩ :
      ∃ d r, 2 * (L * d) + r = 2 * (1024 * S) + L ∧ r < 2 * L ∧
        (2 * (1024 * S) + L) / (2 * L) = d := by
    refine ⟨(2 * (1024 * S) + L) / (2 * L), (2 * (1024 * S) + L) % (2 * L), ?_, ?_, rfl⟩
    · have := Nat.div_add_mod (2 * (1024 * S) + L) (2 * L)
      have h2 : 2 * L * ((2 * (1024 * S) + L) / (2 * L)) =
          2 * (L * ((2 * (1024 * S) + L) / (2 * L))) := by ring
      omega
    · exact Nat.mod_lt _ (by omega)
  rw [hdef]
  have hcomm : max 1 d * L = L * max 1 d := Nat.mul_comm _ _
  rcases Nat.eq_zero_or_pos d with h0 | hpos
  · subst h0
    have hm : max 1 0 = 1 := rfl
    rw [hm] at hcomm ⊢
    omega
  · have hm : max 1 d = d := Nat.max_eq_right hpos
    rw [hm] at hcomm ⊢
    refine ⟨by omega, by omega, ?_⟩
    intro hSL
    by_contra hgt
    push_neg at hgt
    have h1025 : L * 1025 ≤ L * d := Nat.mul_le_mul_left L hgt
    omega

/-- When the longest edge exceeds 1024, `thumbnailDims` yields
dimensions whose longest edge is exactly 1024, with the aspect ratio
preserved within one pixel of rounding (as a cross-product bound). -/
theorem thumbnailDims_spec (w h : Nat) (hbig : 1024 < max w h) :
    max (thumbnailDims w h).1 (thumbnailDims w h).2 = 1024 ∧
    (thumbnailDims w h).1 * h ≤ (thumbnailDims w h).2 * w + max w h ∧
    (thumbnailDims w h).2 * w ≤ (thumbnailDims w h).1 * h + max w h := by
  unfold thumbnailDims
  by_cases hwh : w ≤ h
  · have hmax : max w h = h := Nat.max_eq_right hwh
    have hL : 1 ≤ h := by omega
    obtain ⟨hub, hlb, hle⟩ := scaledEdge_bounds w h hL
    have hq := hle hwh
    simp only [if_pos hwh]
    refine ⟨?_, ?_, ?_⟩
    · exact Nat.max_eq_right hq
    · omega
    · omega
  · have hwh' : h ≤ w := by omega
    have hmax : max w h = w := Nat.max_eq_left hwh'
    have hL : 1 ≤ w := by omega
    obtain ⟨hub, hlb, hle⟩ := scaledEdge_bounds h w hL
    have hq := hle hwh'
    simp only [if_neg hwh]
    refine ⟨?_, ?_, ?_⟩
    · exact Nat.max_eq_left hq
    · omega
    · omega

/-- The dimensions of the normalised image: unchanged when the
longest edge is within 1024, the `thumbnailDims` result otherwise. -/
theorem normalizeImage_dims (img : Bitmap) :
    ((normalizeImage img).width, (normalizeImage img).height) =
      if 1024 < max img.width img.height then thumbnailDims img.width img.height
      else (img.width, img.height) := by
  unfold normalizeImage
  by_cases hbig : 1024 < max img.width img.height
  · simp only [if_pos hbig]
    by_cases hm : ({ img with
        width := (thumbnailDims img.width img.height).1,
        height := (thumbnailDims img.width img.height).2 } : Bitmap).mode ≠ "RGB" <;>
      simp [hm]
  · simp only [if_neg hbig]
    by_cases hm : img.mode ≠ "RGB" <;> simp [hm]

/-- The color mode of the normalised image is always `RGB`. -/
theorem normalizeImage_mode (img : Bitmap) :
    (normalizeImage img).mode = "RGB" := by
  unfold normalizeImage
  by_cases hbig : 1024 < max img.width img.height <;>
    by_cases hm : img.mode = "RGB" <;>
    simp [hbig, hm]

/-- Membership in `insertDesc`: the inserted document plus the old
elements. -/
theorem mem_insertDesc (d y : StoredDoc) (l : List StoredDoc) :
    y ∈ insertDesc d l ↔ y = d ∨ y ∈ l := by
  induction l with
  | nil => simp [insertDesc]
  | cons x xs ih =>
      unfold insertDesc
      by_cases hc : d.timestamp ≤ x.timestamp
      · simp [hc, ih]
        tauto
      · simp [hc, ih]

/-- `insertDesc` preserves descending-timestamp order. -/
theorem insertDesc_pairwise (d : StoredDoc) (l : List StoredDoc)
    (h : l.Pairwise (fun a b => b.timestamp ≤ a.timestamp)) :
    (insertDesc d l).Pairwise (fun a b => b.timestamp ≤ a.timestamp) := by
  induction l with
  | nil => simp [insertDesc]
  | cons x xs ih =>
      rw [List.pairwise_cons] at h
      obtain ⟨hx, hxs⟩ := h
      unfold insertDesc
      by_cases hc : d.timestamp ≤ x.timestamp
      · rw [if_pos hc, List.pairwise_cons]
        refine ⟨?_, ih hxs⟩
        intro y hy
        rcases (mem_insertDesc d y xs).mp hy with rfl | hmem
        · exact hc
        · exact hx y hmem
      · rw [if_neg hc, List.pairwise_cons]
        refine ⟨?_, List.pairwise_cons.mpr ⟨hx, hxs⟩⟩
        intro y hy
        rcases List.mem_cons.mp hy with rfl | hmem
        · omega
        · have := hx y hmem
          omega

/-- The `/history` sort step yields documents in descending timestamp
order. -/
theorem historySort_pairwise (l : List StoredDoc) :
    (historySort l).Pairwise (fun a b => b.timestamp ≤ a.timestamp) := by
  induction l with
  | nil => simp [historySort]
  | cons x xs ih => exact insertDesc_pairwise x (historySort xs) ih

/-! ## Claim theorems -/

/-- C6: for every process state, `/health` returns status `"healthy"`
if and only if both the model handle and the store connection handle
are present, and `"degraded"` otherwise; the handler is a total
function of the readiness flags, so its status is always one of the
two. -/
theorem health_check_status (M C : Type) (model : Option M) (mongo_client : Option C) :
    ((health_check model mongo_client).status = "healthy" ↔
      model.isSome ∧ mongo_client.isSome) ∧
    ((health_check model mongo_client).status = "healthy" ∨
      (health_check model mongo_client).status = "degraded") := by
  unfold health_check
  by_cases hm : model.isSome <;> by_cases hc : mongo_client.isSome <;>
    simp [hm, hc]

/-- C7: the `/analyze` event trace always contains the
model-availability check exactly once and as its first action; when
the model handle is uninitialized the handler fails with HTTP 500 and
performs no inference call. -/
theorem analyze_model_check (env : AnalyzeEnv) (store : List StoredDoc) (oid : Nat) :
    ((analyze_image env store oid).2.2.count .checkModel = 1 ∧
     (analyze_image env store oid).2.2.head? = some .checkModel) ∧
    (env.modelLoaded = false →
      (analyze_image env store oid).1 =
        .httpError 500 "Model not initialized. Please try again later." ∧
      (analyze_image env store oid).2.2.count .captionCall = 0 ∧
      (analyze_image env store oid).2.2.count .queryCall = 0) := by
  unfold analyze_image
  by_cases hm : env.modelLoaded = false
  · simp [hm]
  · rcases hd : env.decoded with _ | img
    · simp [hm, hd]
    · rcases hcap : env.captionBehavior with m | _ | s <;>
        rcases hq : env.queryBehavior with m' | _ | a <;>
        simp [hm, hd, hcap, hq, runInference, runQueryAfter]

/-- C7 witness at a concrete uninitialized-model request. -/
theorem analyze_model_check_at_unloaded :
    ({ modelLoaded := false, decoded := some ⟨640, 480, "RGB"⟩,
       captionBehavior := .value "a dog", queryBehavior := .value "yes",
       storeOk := true, filename := "d.jpg", prompt := "is it a dog?",
       startTime := 0, tRead := 1, tDecode := 1, tInfer := 2, tStore := 1 } : AnalyzeEnv).modelLoaded = false ∧
    (analyze_image
        { modelLoaded := false, decoded := some ⟨640, 480, "RGB"⟩,
          captionBehavior := .value "a dog", queryBehavior := .value "yes",
          storeOk := true, filename := "d.jpg", prompt := "is it a dog?",
          startTime := 0, tRead := 1, tDecode := 1, tInfer := 2, tStore := 1 } [] 0).1 =
      .httpError 500 "Model not initialized. Please try again later." ∧
    (analyze_image
        { modelLoaded := false, decoded := some ⟨640, 480, "RGB"⟩,
          captionBehavior := .value "a dog", queryBehavior := .value "yes",
          storeOk := true, filename := "d.jpg", prompt := "is it a dog?",
          startTime := 0, tRead := 1, tDecode := 1, tInfer := 2, tStore := 1 } [] 0).2.2.count .captionCall = 0 ∧
    (analyze_image
        { modelLoaded := false, decoded := some ⟨640, 480, "RGB"⟩,
          captionBehavior := .value "a dog", queryBehavior := .value "yes",
          storeOk := true, filename := "d.jpg", prompt := "is it a dog?",
          startTime := 0, tRead := 1, tDecode := 1, tInfer := 2, tStore := 1 } [] 0).2.2.count .queryCall = 0 :=
  ⟨rfl,
   (analyze_model_check
      { modelLoaded := false, decoded := some ⟨640, 480, "RGB"⟩,
        captionBehavior := .value "a dog", queryBehavior := .value "yes",
        storeOk := true, filename := "d.jpg", prompt := "is it a dog?",
        startTime := 0, tRead := 1, tDecode := 1, tInfer := 2, tStore := 1 } [] 0).2 rfl⟩

/-- C10: the model-availability check precedes reading and validating
the upload: while the model handle is uninitialized, every request
gets HTTP 500 and the trace stops at the check, regardless of whether
the uploaded bytes decode — so an undecodable image never yields
HTTP 400 when the model is not loaded. -/
theorem analyze_unloaded_skips_validation (env : AnalyzeEnv) (store : List StoredDoc)
    (oid : Nat) (h : env.modelLoaded = false) :
    (analyze_image env store oid).1 =
      .httpError 500 "Model not initialized. Please try again later." ∧
    (analyze_image env store oid).2.2 = [.checkModel] := by
  simp [analyze_image, h]

/-- C10 witness: an undecodable upload with the model unloaded still
gets the 500, not the 400. -/
theorem analyze_unloaded_skips_validation_at_bad_image :
    ({ modelLoaded := false, decoded := none,
       captionBehavior := .falsy, queryBehavior := .falsy,
       storeOk := true, filename := "junk.bin", prompt := "what is this?",
       startTime := 0, tRead := 1, tDecode := 0, tInfer := 0, tStore := 0 } : AnalyzeEnv).modelLoaded = false ∧
    (analyze_image
        { modelLoaded := false, decoded := none,
          captionBehavior := .falsy, queryBehavior := .falsy,
          storeOk := true, filename := "junk.bin", prompt := "what is this?",
          startTime := 0, tRead := 1, tDecode := 0, tInfer := 0, tStore := 0 } [] 0).1 =
      .httpError 500 "Model not initialized. Please try again later." ∧
    (analyze_image
        { modelLoaded := false, decoded := none,
          captionBehavior := .falsy, queryBehavior := .falsy,
          storeOk := true, filename := "junk.bin", prompt := "what is this?",
          startTime := 0, tRead := 1, tDecode := 0, tInfer := 0, tStore := 0 } [] 0).2.2 = [.checkModel] :=
  ⟨rfl,
   analyze_unloaded_skips_validation
     { modelLoaded := false, decoded := none,
       captionBehavior := .falsy, queryBehavior := .falsy,
       storeOk := true, filename := "junk.bin", prompt := "what is this?",
       startTime := 0, tRead := 1, tDecode := 0, tInfer := 0, tStore := 0 } [] 0 rfl⟩

/-- C3: with the model loaded, undecodable upload bytes make the
handler raise HTTP 400; no inference call is made and no document is
written to the store. -/
theorem analyze_invalid_image (env : AnalyzeEnv) (store : List StoredDoc) (oid : Nat)
    (h1 : env.modelLoaded = true) (h2 : env.decoded = none) :
    (analyze_image env store oid).1 = .httpError 400 "Invalid image format" ∧
    (analyze_image env store oid).2.1 = store ∧
    (analyze_image env store oid).2.2 = [.checkModel, .readUpload, .decodeImage] ∧
    Ev.captionCall ∉ (analyze_image env store oid).2.2 ∧
    Ev.queryCall ∉ (analyze_image env store oid).2.2 ∧
    Ev.storeWrite ∉ (analyze_image env store oid).2.2 := by
  simp [analyze_image, h1, h2]

/-- C3 witness at a concrete malformed upload with the model
loaded. -/
theorem analyze_invalid_image_at_bad_upload :
    ({ modelLoaded := true, decoded := none,
       captionBehavior := .falsy, queryBehavior := .falsy,
       storeOk := true, filename := "junk.bin", prompt := "what is this?",
       startTime := 0, tRead := 1, tDecode := 0, tInfer := 0, tStore := 0 } : AnalyzeEnv).modelLoaded = true ∧
    ({ modelLoaded := true, decoded := none,
       captionBehavior := .falsy, queryBehavior := .falsy,
       storeOk := true, filename := "junk.bin", prompt := "what is this?",
       startTime := 0, tRead := 1, tDecode := 0, tInfer := 0, tStore := 0 } : AnalyzeEnv).decoded = none ∧
    (analyze_image
        { modelLoaded := true, decoded := none,
          captionBehavior := .falsy, queryBehavior := .falsy,
          storeOk := true, filename := "junk.bin", prompt := "what is this?",
          startTime := 0, tRead := 1, tDecode := 0, tInfer := 0, tStore := 0 } [] 0).1 =
      .httpError 400 "Invalid image format" ∧
    (analyze_image
        { modelLoaded := true, decoded := none,
          captionBehavior := .falsy, queryBehavior := .falsy,
          storeOk := true, filename := "junk.bin", prompt := "what is this?",
          startTime := 0, tRead := 1, tDecode := 0, tInfer := 0, tStore := 0 } [] 0).2.1 = [] :=
  ⟨rfl, rfl,
   (analyze_invalid_image
      { modelLoaded := true, decoded := none,
        captionBehavior := .falsy, queryBehavior := .falsy,
        storeOk := true, filename := "junk.bin", prompt := "what is this?",
        startTime := 0, tRead := 1, tDecode := 0, tInfer := 0, tStore := 0 } [] 0 rfl rfl).1,
   (analyze_invalid_image
      { modelLoaded := true, decoded := none,
        captionBehavior := .falsy, queryBehavior := .falsy,
        storeOk := true, filename := "junk.bin", prompt := "what is this?",
        startTime := 0, tRead := 1, tDecode := 0, tInfer := 0, tStore := 0 } [] 0 rfl rfl).2.1⟩

/-- C2: when decoding and inference succeed but the MongoDB write
block fails, the exception is swallowed and the handler returns the
very same 200 response — analysis content and `processing_time`
included — that a successful write would have produced. -/
theorem analyze_store_failure_response (env : AnalyzeEnv) (store : List StoredDoc)
    (oid : Nat) (img : Bitmap)
    (h1 : env.modelLoaded = true) (h2 : env.decoded = some img) :
    (analyze_image { env with storeOk := false } store oid).1 =
      (analyze_image { env with storeOk := true } store oid).1 ∧
    (analyze_image { env with storeOk := false } store oid).1 =
      .ok (runInference env.captionBehavior env.queryBehavior).1
        (env.tRead + env.tDecode + env.tInfer) := by
  simp [analyze_image, h1, h2]

/-- C2 witness at a concrete request whose store write fails. -/
theorem analyze_store_failure_response_at_request :
    ({ modelLoaded := true, decoded := some ⟨800, 600, "RGB"⟩,
       captionBehavior := .value "a beach", queryBehavior := .value "two people",
       storeOk := true, filename := "b.jpg", prompt := "how many people?",
       startTime := 3, tRead := 1, tDecode := 1, tInfer := 4, tStore := 1 } : AnalyzeEnv).modelLoaded = true ∧
    ({ modelLoaded := true, decoded := some ⟨800, 600, "RGB"⟩,
       captionBehavior := .value "a beach", queryBehavior := .value "two people",
       storeOk := true, filename := "b.jpg", prompt := "how many people?",
       startTime := 3, tRead := 1, tDecode := 1, tInfer := 4, tStore := 1 } : AnalyzeEnv).decoded = some ⟨800, 600, "RGB"⟩ ∧
    (analyze_image
        { modelLoaded := true, decoded := some ⟨800, 600, "RGB"⟩,
          captionBehavior := .value "a beach", queryBehavior := .value "two people",
          storeOk := false, filename := "b.jpg", prompt := "how many people?",
          startTime := 3, tRead := 1, tDecode := 1, tInfer := 4, tStore := 1 } [] 7).1 =
      (analyze_image
        { modelLoaded := true, decoded := some ⟨800, 600, "RGB"⟩,
          captionBehavior := .value "a beach", queryBehavior := .value "two people",
          storeOk := true, filename := "b.jpg", prompt := "how many people?",
          startTime := 3, tRead := 1, tDecode := 1, tInfer := 4, tStore := 1 } [] 7).1 :=
  ⟨rfl, rfl,
   (analyze_store_failure_response
      { modelLoaded := true, decoded := some ⟨800, 600, "RGB"⟩,
        captionBehavior := .value "a beach", queryBehavior := .value "two people",
        storeOk := true, filename := "b.jpg", prompt := "how many people?",
        startTime := 3, tRead := 1, tDecode := 1, tInfer := 4, tStore := 1 } [] 7
      ⟨800, 600, "RGB"⟩ rfl rfl).1⟩

/-- C9: for every request that passes decoding, the reported
`processing_time` is the wall-clock duration of the read, decode and
inference phases — receipt up to just before persistence — so it is
unaffected by the duration of the store write, and any document this
request appends to the store records that same value. -/
theorem analyze_processing_time (env : AnalyzeEnv) (store : List StoredDoc)
    (oid : Nat) (img : Bitmap)
    (h1 : env.modelLoaded = true) (h2 : env.decoded = some img) :
    (analyze_image env store oid).1 =
      .ok (runInference env.captionBehavior env.queryBehavior).1
        (env.tRead + env.tDecode + env.tInfer) ∧
    (∀ t, (analyze_image { env with tStore := t } store oid).1 =
        (analyze_image env store oid).1) ∧
    (∀ d, d ∈ (analyze_image env store oid).2.1 → d ∉ store →
        d.processing_time = env.tRead + env.tDecode + env.tInfer) := by
  refine ⟨by simp [analyze_image, h1, h2], ?_, ?_⟩
  · intro t
    simp [analyze_image, h1, h2]
  · intro d hd hnotin
    by_cases hs : env.storeOk
    · simp [analyze_image, h1, h2, hs] at hd
      rcases hd with hd | rfl
      · exact absurd hd hnotin
      · rfl
    · simp [analyze_image, h1, h2, hs] at hd
      exact absurd hd hnotin

/-- C9 witness at a concrete successful request. -/
theorem analyze_processing_time_at_request :
    ({ modelLoaded := true, decoded := some ⟨800, 600, "RGB"⟩,
       captionBehavior := .value "a beach", queryBehavior := .value "two people",
       storeOk := true, filename := "b.jpg", prompt := "how many people?",
       startTime := 3, tRead := 1, tDecode := 1, tInfer := 4, tStore := 9 } : AnalyzeEnv).modelLoaded = true ∧
    ({ modelLoaded := true, decoded := some ⟨800, 600, "RGB"⟩,
       captionBehavior := .value "a beach", queryBehavior := .value "two people",
       storeOk := true, filename := "b.jpg", prompt := "how many people?",
       startTime := 3, tRead := 1, tDecode := 1, tInfer := 4, tStore := 9 } : AnalyzeEnv).decoded = some ⟨800, 600, "RGB"⟩ ∧
    (analyze_image
        { modelLoaded := true, decoded := some ⟨800, 600, "RGB"⟩,
          captionBehavior := .value "a beach", queryBehavior := .value "two people",
          storeOk := true, filename := "b.jpg", prompt := "how many people?",
          startTime := 3, tRead := 1, tDecode := 1, tInfer := 4, tStore := 9 } [] 7).1 =
      .ok (runInference (.value "a beach") (.value "two people")).1 6 :=
  ⟨rfl, rfl,
   (analyze_processing_time
      { modelLoaded := true, decoded := some ⟨800, 600, "RGB"⟩,
        captionBehavior := .value "a beach", queryBehavior := .value "two people",
        storeOk := true, filename := "b.jpg", prompt := "how many people?",
        startTime := 3, tRead := 1, tDecode := 1, tInfer := 4, tStore := 9 } [] 7
      ⟨800, 600, "RGB"⟩ rfl rfl).1⟩

/-- C8: every `/analyze` request appends at most one document to the
store, attempts the store write at most once, and the HTTP response
is identical whatever the persistence outcome. -/
theorem analyze_store_at_most_once (env : AnalyzeEnv) (store : List StoredDoc) (oid : Nat) :
    (analyze_image env store oid).2.1.length ≤ store.length + 1 ∧
    (analyze_image env store oid).2.2.count .storeWrite ≤ 1 ∧
    ∀ b₁ b₂ : Bool,
      (analyze_image { env with storeOk := b₁ } store oid).1 =
        (analyze_image { env with storeOk := b₂ } store oid).1 := by
  by_cases hm : env.modelLoaded = false
  · simp [analyze_image, hm]
  · rcases hd : env.decoded with _ | img
    · simp [analyze_image, hm, hd]
    · refine ⟨?_, ?_, ?_⟩
      · by_cases hs : env.storeOk <;> simp [analyze_image, hm, hd, hs]
      · rcases hcap : env.captionBehavior with m | _ | s <;>
          rcases hq : env.queryBehavior with m' | _ | a <;>
          simp [analyze_image, hm, hd, hcap, hq, runInference, runQueryAfter]
      · intro b₁ b₂
        simp [analyze_image, hm, hd]

/-- The analysis dictionary carried by a 200 response, if any. -/
def analysisOf : AnalyzeResponse → Option AnalysisResults
  | .ok r _ => some r
  | .httpError _ _ => none

/-- A request on which the caption call raises while the query call
would succeed with the answer `"a cat"`. -/
def c1Env : AnalyzeEnv :=
  { modelLoaded := true, decoded := some ⟨640, 480, "RGB"⟩,
    captionBehavior := .raiseExc "CUDA error", queryBehavior := .value "a cat",
    storeOk := true, filename := "cat.jpg", prompt := "what animal is this?",
    startTime := 100, tRead := 1, tDecode := 1, tInfer := 5, tStore := 2 }

/-- C1 counterexample: on `c1Env` the caption call raises and the
query call would succeed, yet the 200 response contains neither the
query answer in `prompt_response` nor a failure placeholder in
`short_caption` — both keys are absent and only the aggregate error
note is present, because both calls share a single `try` block. -/
theorem analyze_caption_raise_not_independent :
    c1Env.captionBehavior = .raiseExc "CUDA error" ∧
    c1Env.queryBehavior = .value "a cat" ∧
    (analyze_image c1Env [] 0).1 =
      .ok { short_caption := none, prompt_response := none,
            error := some "Analysis partially failed: CUDA error" } 7 ∧
    (analysisOf (analyze_image c1Env [] 0).1).map AnalysisResults.prompt_response =
      some none ∧
    (analysisOf (analyze_image c1Env [] 0).1).map AnalysisResults.short_caption =
      some none :=
  ⟨rfl, rfl, rfl, rfl, rfl⟩

/-- C1 amended: the two model calls share one `try` block.  A caption
call that fails by returning a falsy result does not prevent the
query call: the request returns HTTP 200 with the query answer in
`prompt_response` and the failure placeholder in `short_caption`.  A
caption call that fails by raising skips the query call entirely: the
request still returns HTTP 200, but the response carries only the
aggregate error note, with neither `short_caption` nor
`prompt_response` set. -/
theorem analyze_caption_failure_modes (env : AnalyzeEnv) (store : List StoredDoc)
    (oid : Nat) (img : Bitmap) (a : String)
    (h1 : env.modelLoaded = true) (h2 : env.decoded = some img)
    (hq : env.queryBehavior = .value a) :
    (env.captionBehavior = .falsy →
      (analyze_image env store oid).1 =
        .ok { short_caption := some "Caption generation failed",
              prompt_response := some a, error := none }
          (env.tRead + env.tDecode + env.tInfer)) ∧
    (∀ m, env.captionBehavior = .raiseExc m →
      (analyze_image env store oid).1 =
        .ok { short_caption := none, prompt_response := none,
              error := some ("Analysis partially failed: " ++ m) }
          (env.tRead + env.tDecode + env.tInfer)) := by
  constructor
  · intro hc
    simp [analyze_image, h1, h2, hq, hc, runInference, runQueryAfter]
  · intro m hc
    simp [analyze_image, h1, h2, hc, runInference]

/-- C1 witness: a concrete falsy caption failure next to a successful
query. -/
theorem analyze_caption_failure_modes_at_request :
    ({ modelLoaded := true, decoded := some ⟨640, 480, "RGB"⟩,
       captionBehavior := .falsy, queryBehavior := .value "a cat",
       storeOk := true, filename := "cat.jpg", prompt := "what animal is this?",
       startTime := 100, tRead := 1, tDecode := 1, tInfer := 5, tStore := 2 } : AnalyzeEnv).modelLoaded = true ∧
    ({ modelLoaded := true, decoded := some ⟨640, 480, "RGB"⟩,
       captionBehavior := .falsy, queryBehavior := .value "a cat",
       storeOk := true, filename := "cat.jpg", prompt := "what animal is this?",
       startTime := 100, tRead := 1, tDecode := 1, tInfer := 5, tStore := 2 } : AnalyzeEnv).queryBehavior = .value "a cat" ∧
    (analyze_image
        { modelLoaded := true, decoded := some ⟨640, 480, "RGB"⟩,
          captionBehavior := .falsy, queryBehavior := .value "a cat",
          storeOk := true, filename := "cat.jpg", prompt := "what animal is this?",
          startTime := 100, tRead := 1, tDecode := 1, tInfer := 5, tStore := 2 } [] 0).1 =
      .ok { short_caption := some "Caption generation failed",
            prompt_response := some "a cat", error := none } 7 :=
  ⟨rfl, rfl,
   (analyze_caption_failure_modes
      { modelLoaded := true, decoded := some ⟨640, 480, "RGB"⟩,
        captionBehavior := .falsy, queryBehavior := .value "a cat",
        storeOk := true, filename := "cat.jpg", prompt := "what animal is this?",
        startTime := 100, tRead := 1, tDecode := 1, tInfer := 5, tStore := 2 } [] 0
      ⟨640, 480, "RGB"⟩ "a cat" rfl rfl rfl).1 rfl⟩

/-- C4: the image normalizer leaves the dimensions of an image whose
longest edge is within 1024 px unchanged; an image with an edge over
1024 px comes out with its longest edge exactly 1024 and the aspect
ratio preserved within one pixel of rounding (stated as a
cross-product bound); and the output color mode is always the
3-channel `RGB`. -/
theorem normalizeImage_spec (img : Bitmap) :
    (max img.width img.height ≤ 1024 →
      (normalizeImage img).width = img.width ∧
      (normalizeImage img).height = img.height) ∧
    (1024 < max img.width img.height →
      max (normalizeImage img).width (normalizeImage img).height = 1024 ∧
      (normalizeImage img).width * img.height ≤
        (normalizeImage img).height * img.width + max img.width img.height ∧
      (normalizeImage img).height * img.width ≤
        (normalizeImage img).width * img.height + max img.width img.height) ∧
    (normalizeImage img).mode = "RGB" := by
  have hd := normalizeImage_dims img
  refine ⟨?_, ?_, normalizeImage_mode img⟩
  · intro hle
    rw [if_neg (by omega)] at hd
    simp only [Prod.mk.injEq] at hd
    exact hd
  · intro hbig
    rw [if_pos hbig] at hd
    obtain ⟨h1, h2, h3⟩ := thumbnailDims_spec img.width img.height hbig
    simp only [Prod.ext_iff] at hd
    obtain ⟨hw, hh⟩ := hd
    rw [hw, hh]
    exact ⟨h1, h2, h3⟩

/-- C4 witness: a 2048 by 1536 image in mode `L` comes out 1024 on
its longest edge and in `RGB`; a 640 by 480 image keeps its
dimensions. -/
theorem normalizeImage_spec_at_samples :
    1024 < max 2048 1536 ∧
    max (normalizeImage ⟨2048, 1536, "L"⟩).width (normalizeImage ⟨2048, 1536, "L"⟩).height = 1024 ∧
    (normalizeImage ⟨2048, 1536, "L"⟩).mode = "RGB" ∧
    max 640 480 ≤ 1024 ∧
    (normalizeImage ⟨640, 480, "CMYK"⟩).width = 640 ∧
    (normalizeImage ⟨640, 480, "CMYK"⟩).height = 480 :=
  ⟨by decide,
   ((normalizeImage_spec ⟨2048, 1536, "L"⟩).2.1 (by decide)).1,
   (normalizeImage_spec ⟨2048, 1536, "L"⟩).2.2,
   by decide,
   ((normalizeImage_spec ⟨640, 480, "CMYK"⟩).1 (by decide)).1,
   ((normalizeImage_spec ⟨640, 480, "CMYK"⟩).1 (by decide)).2⟩

/-- Inserting one document grows the list by exactly one. -/
theorem length_insertDesc (d : StoredDoc) (l : List StoredDoc) :
    (insertDesc d l).length = l.length + 1 := by
  induction l with
  | nil => rfl
  | cons x xs ih =>
      unfold insertDesc
      by_cases hc : d.timestamp ≤ x.timestamp <;> simp [hc, ih]

/-- Sorting the store does not change how many documents it holds. -/
theorem length_historySort (l : List StoredDoc) :
    (historySort l).length = l.length := by
  induction l with
  | nil => rfl
  | cons x xs ih =>
      unfold historySort
      rw [length_insertDesc, ih, List.length_cons]

/-- C5 amended: `/history` with limit `N` (default 10) returns every
record when `N = 0` (a Mongo limit of 0 means no limit) and at most
`|N|` records otherwise, in non-strictly descending timestamp order
(equal timestamps may sit next to each other), each with the store id
converted to a string, the timestamp converted to its ISO string, and
no `image_data` field. -/
theorem get_history_spec (store : List StoredDoc) (limit : Int) :
    (limit = 0 → (get_history store limit).length = store.length) ∧
    (limit ≠ 0 → (get_history store limit).length ≤ limit.natAbs) ∧
    ((selectHistory store limit).map (fun d => d.timestamp)).Pairwise (· ≥ ·) ∧
    get_history store limit = (selectHistory store limit).map toHistoryDoc ∧
    (∀ h ∈ get_history store limit, h.image_data = none) ∧
    (∀ d ∈ selectHistory store limit,
        (toHistoryDoc d).id = toString d.oid ∧
        (toHistoryDoc d).timestampIso = isoformat d.timestamp) ∧
    get_historyDefault store = get_history store 10 := by
  refine ⟨?_, ?_, ?_, rfl, ?_, ?_, rfl⟩
  · intro h0
    rw [get_history, List.length_map, selectHistory, if_pos h0, length_historySort]
  · intro hne
    rw [get_history, List.length_map, selectHistory, if_neg hne, List.length_take]
    omega
  · rw [List.pairwise_map]
    unfold selectHistory
    by_cases h0 : limit = 0
    · rw [if_pos h0]
      exact historySort_pairwise store
    · rw [if_neg h0]
      exact (historySort_pairwise store).sublist
        (List.take_sublist limit.natAbs (historySort store))
  · intro h hmem
    rw [get_history] at hmem
    obtain ⟨d, _, rfl⟩ := List.mem_map.mp hmem
    rfl
  · intro d _
    exact ⟨rfl, rfl⟩

/-- A stored analysis whose timestamp collides with `c5DocB`. -/
def c5DocA : StoredDoc :=
  { oid := 1, timestamp := 5, filename := "a.jpg", prompt := "p1",
    analysis_results := { short_caption := some "c1", prompt_response := some "r1", error := none },
    processing_time := 3, image_data := "xxxx" }

/-- A second stored analysis with the same timestamp as `c5DocA`. -/
def c5DocB : StoredDoc :=
  { oid := 2, timestamp := 5, filename := "b.jpg", prompt := "p2",
    analysis_results := { short_caption := some "c2", prompt_response := some "r2", error := none },
    processing_time := 4, image_data := "yyyy" }

/-- C5 counterexample: with two stored documents sharing timestamp 5,
`/history` returns both, so the returned timestamps are `[5, 5]`,
which is descending but not strictly descending. -/
theorem get_history_not_strictly_descending :
    (selectHistory [c5DocA, c5DocB] 10).map (fun d => d.timestamp) = [5, 5] ∧
    ¬ ((selectHistory [c5DocA, c5DocB] 10).map (fun d => d.timestamp)).Pairwise (· > ·) := by
  constructor
  · rfl
  · decide

/-- C5 witness: with two stored documents, a zero limit returns both
records (no limit) and a limit of 3 returns at most 3. -/
theorem get_history_spec_at_limits :
    ((0 : Int) = 0 ∧
      (get_history [c5DocA, c5DocB] 0).length = ([c5DocA, c5DocB] : List StoredDoc).length) ∧
    ((3 : Int) ≠ 0 ∧ (get_history [c5DocA, c5DocB] 3).length ≤ (3 : Int).natAbs) :=
  ⟨⟨rfl, (get_history_spec [c5DocA, c5DocB] 0).1 rfl⟩,
   ⟨by decide, (get_history_spec [c5DocA, c5DocB] 3).2.1 (by decide)⟩⟩
